import Mathlib

/-!
Verification of the FlutterReflect JSON-RPC protocol engine.

This development shallowly embeds the JSON-RPC message model
(`src/jsonrpc/message.cpp`), the dispatch engine (`src/jsonrpc/handler.cpp`,
`src/mcp/server.cpp`), the VM-service correlation client
(`src/flutter/vm_service_client.cpp`) and the instance-discovery scanner
(`src/flutter/instance_discovery.cpp`), and proves or refutes the spec's
claims about them.

JSON values are modelled at the DOM level (the `nlohmann::json` tree); the
text layer (`dump`/`json::parse`) is a faithful bijection on well-formed
values and is not re-modelled.  `nlohmann::json` objects are `std::map`s
ordered by key, so an object is represented canonically as an association
list sorted by key; every `toJson` below emits its keys in that sorted
order, exactly the map the C++ builds.
-/

namespace FlutterReflect

/-- The `nlohmann::json` value tree.  Numbers are split into integers
(covering `int64_t` ids and codes) and a separate constructor is not needed
for doubles by any claim, so `num` carries an `Int`. -/
inductive Json where
  | null : Json
  | bool (b : Bool) : Json
  | num (n : Int) : Json
  | str (s : String) : Json
  | arr (elems : List Json) : Json
  | obj (fields : List (String × Json)) : Json

namespace Json

/-- `j.is_object()` -/
def isObject : Json → Bool
  | obj _ => true
  | _ => false

/-- `j.is_null()` -/
def isNull : Json → Bool
  | null => true
  | _ => false

/-- `j.is_string()` -/
def isString : Json → Bool
  | str _ => true
  | _ => false

/-- `j.is_number_integer()` -/
def isInt : Json → Bool
  | num _ => true
  | _ => false

/-- `j.is_array()` -/
def isArray : Json → Bool
  | arr _ => true
  | _ => false

/-- Key lookup in an object: `j[k]` / `j.at(k)` when the key is present. -/
def get? : Json → String → Option Json
  | obj fields, k => fields.lookup k
  | _, _ => none

/-- `j.contains(k)` -/
def containsKey (j : Json) (k : String) : Bool :=
  (j.get? k).isSome

/-- `j[k]` on a non-const `nlohmann::json`: a missing key yields a freshly
inserted `null` (this is what `VMServiceClient::onMessage` relies on when a
reply has no `result` member). -/
def getD (j : Json) (k : String) : Json :=
  (j.get? k).getD Json.null

end Json

/-! ## Message model (`src/jsonrpc/message.cpp`) -/

/-- `std::variant<std::string, int64_t, std::nullptr_t>`, the JSON-RPC id.
The default-constructed value is `nullptr`, i.e. `null`. -/
inductive RequestId where
  | str (s : String) : RequestId
  | int (n : Int) : RequestId
  | null : RequestId
  deriving DecidableEq

/-- The JSON value a `RequestId` serializes to (the trailing `else` branch of
`Request::toJson` / `Response::toJson` writes `nullptr`). -/
def RequestId.toJson : RequestId → Json
  | .str s => .str s
  | .int n => .num n
  | .null => .null

/-- `Request::getIdString` -/
def RequestId.toIdString : RequestId → String
  | .str s => s
  | .int n => toString n
  | .null => "null"

/-- `jsonrpc::Request` with its C++ member initializers as defaults. -/
structure Request where
  jsonrpc : String := "2.0"
  method : String
  params : Json := .obj []
  id : RequestId := .null

/-- `jsonrpc::Error` -/
structure Error where
  code : Int
  message : String
  data : Option Json := none

/-- `jsonrpc::ErrorCode` -/
inductive ErrorCode where
  | parseError | invalidRequest | methodNotFound | invalidParams | internalError | serverError
  deriving DecidableEq

/-- `static_cast<int>(code)` -/
def ErrorCode.toInt : ErrorCode → Int
  | .parseError => -32700
  | .invalidRequest => -32600
  | .methodNotFound => -32601
  | .invalidParams => -32602
  | .internalError => -32603
  | .serverError => -32000

/-- The default message `Error::fromCode` picks for an empty message. -/
def ErrorCode.defaultMessage : ErrorCode → String
  | .parseError => "Parse error"
  | .invalidRequest => "Invalid request"
  | .methodNotFound => "Method not found"
  | .invalidParams => "Invalid params"
  | .internalError => "Internal error"
  | .serverError => "Server error"

/-- `Error::fromCode` -/
def Error.fromCode (code : ErrorCode) (message : String := "")
    (data : Option Json := none) : Error :=
  { code := code.toInt
    message := if message.isEmpty then code.defaultMessage else message
    data := data }

/-- `Error::toJson`.  The C++ inserts `code`, `message`, then optionally
`data` into an `nlohmann::json` object, i.e. a `std::map`; the resulting map
holds its keys in sorted order `code < data < message`. -/
def Error.toJson (e : Error) : Json :=
  .obj ([("code", .num e.code)]
    ++ (match e.data with | some d => [("data", d)] | none => [])
    ++ [("message", .str e.message)])

/-- `jsonrpc::Response` with its C++ member initializers as defaults. -/
structure Response where
  jsonrpc : String := "2.0"
  result : Option Json := none
  error : Option Error := none
  id : RequestId := .null

/-- `Response::success` -/
def Response.success (result : Json) (id : RequestId) : Response :=
  { result := some result, id := id }

/-- `Response::errorResponse` -/
def Response.errorResponse (error : Error) (id : RequestId) : Response :=
  { error := some error, id := id }

/-- `Response::isError` -/
def Response.isError (r : Response) : Bool := r.error.isSome

/-- `Response::toJson`: inserts `jsonrpc`, optionally `result`, optionally
`error`, then `id` into a `std::map`-backed object, whose sorted key order is
`error < id < jsonrpc < result`. -/
def Response.toJson (r : Response) : Json :=
  .obj ((match r.error with | some e => [("error", e.toJson)] | none => [])
    ++ [("id", r.id.toJson), ("jsonrpc", .str r.jsonrpc)]
    ++ (match r.result with | some v => [("result", v)] | none => []))

/-- `jsonrpc::Notification` with its C++ member initializers as defaults. -/
structure Notification where
  jsonrpc : String := "2.0"
  method : String
  params : Json := .obj []

/-- `Notification::toJson`: sorted key order `jsonrpc < method < params`;
`params` is emitted only when not null. -/
def Notification.toJson (n : Notification) : Json :=
  .obj (("jsonrpc", .str n.jsonrpc) :: ("method", .str n.method)
    :: (if n.params.isNull then [] else [("params", n.params)]))

/-- `Notification::create` -/
def Notification.create (method : String) (params : Json := .obj []) : Notification :=
  { method := method, params := params }

/-- `jsonrpc::validateJsonRpc`.  Throws (`Except.error`) with the same
message strings as the C++.  `j["jsonrpc"] != "2.0"` on an `nlohmann::json`
holds unless the member is the JSON string `"2.0"`. -/
def validateJsonRpc (j : Json) : Except String Unit := do
  if !j.isObject then
    throw "JSON-RPC message must be an object"
  let versionOk : Bool :=
    match j.get? "jsonrpc" with
    | some (.str s) => s == "2.0"
    | _ => false
  if !versionOk then
    throw "JSON-RPC version must be '2.0'"
  match j.get? "method" with
  | none =>
    -- Could be a response instead of request
    if !j.containsKey "result" && !j.containsKey "error" then
      throw "JSON-RPC message must have 'method' or 'result'/'error'"
    else
      pure ()
  | some m =>
    -- It's a request or notification
    if !m.isString then
      throw "JSON-RPC 'method' must be a string"
    match j.get? "params" with
    | some p =>
      if !p.isObject && !p.isArray then
        throw "JSON-RPC 'params' must be an object or array"
      else
        pure ()
    | none => pure ()

/-- `Request::fromJson`.  `j.at(k)` throws on a missing key; `.get<T>()`
throws on a wrong type — both become `Except.error` here. -/
def Request.fromJson (j : Json) : Except String Request := do
  validateJsonRpc j
  let jsonrpc ← match j.get? "jsonrpc" with
    | some (.str s) => pure s
    | _ => throw "type error: jsonrpc is not a string"
  let method ← match j.get? "method" with
    | some (.str s) => pure s
    | some _ => throw "type error: method is not a string"
    | none => throw "out of range: key 'method' not found"
  let params : Json :=
    match j.get? "params" with
    | some p => p
    | none => .obj []  -- member keeps its default value when "params" is absent
  let id ← match j.get? "id" with
    | none => pure RequestId.null  -- member keeps its default `nullptr`
    | some (.str s) => pure (RequestId.str s)
    | some (.num n) => pure (RequestId.int n)
    | some .null => pure RequestId.null
    | some _ => throw "Invalid id type in JSON-RPC request"
  pure { jsonrpc := jsonrpc, method := method, params := params, id := id }

/-- `Request::toJson`: inserts `jsonrpc`, `method`, optionally `params`
(skipped when null), then always `id` into a `std::map`-backed object, whose
sorted key order is `id < jsonrpc < method < params`. -/
def Request.toJson (r : Request) : Json :=
  .obj (("id", r.id.toJson) :: ("jsonrpc", .str r.jsonrpc) :: ("method", .str r.method)
    :: (if r.params.isNull then [] else [("params", r.params)]))

/-- `Request::hasId` -/
def Request.hasId (r : Request) : Bool := r.id ≠ RequestId.null

/-- `Request::parse`: `nlohmann::json::parse` (text → DOM, not re-modelled)
followed by `fromJson`, with every failure re-thrown as
`"Failed to parse JSON-RPC request: " + e.what()`. -/
def Request.parse (j : Json) : Except String Request :=
  match Request.fromJson j with
  | .ok r => .ok r
  | .error e => .error ("Failed to parse JSON-RPC request: " ++ e)

/-- `Request::serialize` = `toJson().dump()`; at the DOM level
parse-after-serialize is therefore `fromJson ∘ toJson` (the `parse` wrapper
only rewords failures, which a successful round trip never meets). -/
def Request.parseSerialized (r : Request) : Except String Request :=
  Request.fromJson r.toJson

/-! ## Dispatch engine (`src/jsonrpc/handler.cpp`) -/

/-- `jsonrpc::MethodHandler`: takes the params, returns a result or throws. -/
def MethodHandler := Json → Except String Json

/-- `jsonrpc::MessageHandler`: the method registry.  `std::unordered_map`
keyed by method name; lookup is all dispatch needs. -/
structure MessageHandler where
  methods : List (String × MethodHandler)

/-- `MessageHandler::hasMethod` -/
def MessageHandler.hasMethod (h : MessageHandler) (method : String) : Bool :=
  (h.methods.lookup method).isSome

/-- `MessageHandler::registerMethod` (`methods_[method] = handler`: last
writer wins). -/
def MessageHandler.registerMethod (h : MessageHandler) (method : String)
    (handler : MethodHandler) : MessageHandler :=
  { methods := (method, handler) :: h.methods.filter (fun p => p.1 ≠ method) }

/-- `MessageHandler::handleRequest`: registry miss → `MethodNotFound` with
the original id; handler success → `result` response; handler throw →
`InternalError` response whose *message* is `e.what()`. -/
def MessageHandler.handleRequest (h : MessageHandler) (req : Request) : Response :=
  match h.methods.lookup req.method with
  | none =>
    Response.errorResponse
      (Error.fromCode .methodNotFound ("Method '" ++ req.method ++ "' not found"))
      req.id
  | some handler =>
    match handler req.params with
    | .ok result => Response.success result req.id
    | .error e => Response.errorResponse (Error.fromCode .internalError e) req.id

/-- `MessageHandler::handleMessage` at the DOM level: a `Request::parse`
failure (already prefixed `"Failed to parse JSON-RPC request: "` by `parse`'s
own catch) → `ParseError` response with null id; notification (no id) →
handler invoked best-effort, no reply (`none`); request → `handleRequest`'s
reply. -/
def MessageHandler.handleMessage (h : MessageHandler) (j : Json) : Option Json :=
  match Request.parse j with
  | .error e =>
    some ((Response.errorResponse (Error.fromCode .parseError e) RequestId.null).toJson)
  | .ok req =>
    if !req.hasId then
      none  -- no response for notifications
    else
      some ((h.handleRequest req).toJson)

/-! ## MCP server (`src/mcp/server.cpp`)

The server registers exactly the methods `initialize`, `tools/list`,
`tools/call` and `ping` on its `MessageHandler`; their handlers are closures
over the server's `initialized_` flag and tool registry, so dispatch is
modelled as an explicit state transformer that composes
`MessageHandler::handleRequest`'s branching with the registered lambdas. -/

/-- `mcp::ToolInfo`, reduced to the fields dispatch observes: the unique
name, and its `toJson()` rendering (an opaque metadata value). -/
structure ToolEntry where
  name : String
  info : Json
  exec : Json → Except String Json

/-- The server state the registered handlers close over. -/
structure ServerState where
  initialized : Bool := false  -- `initialized_(false)` in the constructor
  tools : List ToolEntry := []
  clientInfo : Option Json := none

/-- `MCP_VERSION` -/
def MCP_VERSION : String := "2024-11-05"

/-- `serverInfo`/`capabilities` payload of the initialize result; opaque to
every claim, kept abstract as its `toJson()` rendering. -/
def serverInfoJson : Json := .obj [("name", .str "flutter-reflect")]

def capabilitiesJson : Json :=
  .obj [("logging", .obj []), ("tools", .obj [])]

/-- `Server::handleInitialize` -/
def ServerState.handleInitialize (s : ServerState) (params : Json) :
    Except String (ServerState × Json) :=
  if s.initialized then
    .error "Server already initialized"
  else
    let s := if params.containsKey "clientInfo"
      then { s with clientInfo := params.get? "clientInfo" }
      else s
    let s := { s with initialized := true }
    .ok (s, .obj [("capabilities", capabilitiesJson),
                  ("protocolVersion", .str MCP_VERSION),
                  ("serverInfo", serverInfoJson)])

/-- `Server::handleToolsList` -/
def ServerState.handleToolsList (s : ServerState) (_params : Json) :
    Except String (ServerState × Json) :=
  if !s.initialized then
    .error "Server not initialized"
  else
    .ok (s, .obj [("tools", .arr (s.tools.map (·.info)))])

/-- `Server::handleToolsCall` -/
def ServerState.handleToolsCall (s : ServerState) (params : Json) :
    Except String (ServerState × Json) :=
  if !s.initialized then
    .error "Server not initialized"
  else
    match params.get? "name" with
    | some (.str toolName) =>
      let args := match params.get? "arguments" with
        | some a => a
        | none => .obj []
      match s.tools.find? (·.name == toolName) with
      | none => .error ("Tool not found: " ++ toolName)
      | some tool =>
        -- the success payload wraps `result.dump(2)` in a text content item;
        -- the pretty-printed text is observed by no claim and not re-modelled
        match tool.exec args with
        | .ok _result =>
          .ok (s, .obj [("content",
            .arr [.obj [("text", .str "rendered"), ("type", .str "text")]])])
        | .error e => .error e
    | some _ => .error "type error: name is not a string"
    | none => .error "out of range: key 'name' not found"

/-- `Server::handlePing` -/
def ServerState.handlePing (s : ServerState) (_params : Json) :
    Except String (ServerState × Json) :=
  .ok (s, .obj [])

/-- The method names `Server::registerMcpMethods` registers. -/
def serverMethods : List String := ["initialize", "tools/list", "tools/call", "ping"]

/-- Run the lambda `registerMcpMethods` registered for `method`.  `none` for
a name that was never registered (registry miss in the `MessageHandler`). -/
def ServerState.runHandler (s : ServerState) (method : String) (params : Json) :
    Option (Except String (ServerState × Json)) :=
  if method == "initialize" then some (s.handleInitialize params)
  else if method == "tools/list" then some (s.handleToolsList params)
  else if method == "tools/call" then some (s.handleToolsCall params)
  else if method == "ping" then some (s.handlePing params)
  else none

/-- `MessageHandler::handleRequest` as instantiated by the MCP server: the
registry is consulted first; a registered handler that throws is caught and
becomes an `InternalError` response. -/
def ServerState.handleRequest (s : ServerState) (req : Request) :
    ServerState × Response :=
  match s.runHandler req.method req.params with
  | none =>
    (s, Response.errorResponse
      (Error.fromCode .methodNotFound ("Method '" ++ req.method ++ "' not found"))
      req.id)
  | some (.ok (s', result)) => (s', Response.success result req.id)
  | some (.error e) => (s, Response.errorResponse (Error.fromCode .internalError e) req.id)

/-! ## Correlation client (`src/flutter/vm_service_client.cpp`)

The client's observable state: the connection flags, the monotone request-id
counter and the pending-call table (the keys of
`std::unordered_map<int64_t, std::promise<json>>`).  Completing a promise is
modelled as an emitted `(id, Outcome)` pair / `MessageEffect`; the wall-clock
wait of `future.wait_for` is abstracted into which branch the caller takes
(`WaitOutcome`), which is the only thing the branch-local code observes. -/

/-- How a `std::promise<json>` is completed. -/
inductive Outcome where
  | value (v : Json) : Outcome              -- `promise.set_value(v)`
  | exn (msg : String) : Outcome            -- `promise.set_exception(runtime_error(msg))`

/-- `VMServiceClient`'s fields, with their in-class initializers. -/
structure ClientState where
  wsUri : String := ""
  connected : Bool := false
  running : Bool := false
  nextRequestId : Int := 1
  pending : List Int := []
  mainIsolateId : String := ""

/-- `VMServiceClient::disconnect`: early-returns when neither connected nor
running; otherwise drops the flags, completes every pending promise with
`runtime_error("Connection closed")` and clears the table. -/
def ClientState.disconnect (s : ClientState) : ClientState × List (Int × Outcome) :=
  if !s.connected && !s.running then
    (s, [])
  else
    ({ s with connected := false, running := false, pending := [], mainIsolateId := "" },
     s.pending.map (fun id => (id, Outcome.exn "Connection closed")))

/-- The transport-level outcome of a fresh connection attempt (the part of
`connect` behind the already-connected fast path). -/
inductive ConnectAttempt where
  | createFails : ConnectAttempt            -- `get_connection` reports an error code
  | timesOut : ConnectAttempt               -- the open handler never fires within 5s
  | opensIsolateFails : ConnectAttempt      -- opened, but `getMainIsolateId()` throws
  | opens (isolateId : String) : ConnectAttempt

/-- `VMServiceClient::connect`.  When already connected it logs a warning and
returns `true` at once — `uri` and `auth_token` are never read and the
existing connection is untouched.  Otherwise the attempt proceeds:
`ws_uri_ = uri` is recorded, the I/O thread starts, and failure paths call
`disconnect()` (whose promise completions are the third component). -/
def ClientState.connect (s : ClientState) (t : ConnectAttempt)
    (uri : String) (_authToken : String) : ClientState × Bool × List (Int × Outcome) :=
  if s.connected then
    (s, true, [])
  else
    match t with
    | .createFails => ({ s with wsUri := uri }, false, [])
    | .timesOut =>
      let d := ({ s with wsUri := uri, running := true } : ClientState).disconnect
      (d.1, false, d.2)
    | .opensIsolateFails =>
      let d := ({ s with wsUri := uri, connected := true, running := true } : ClientState).disconnect
      (d.1, false, d.2)
    | .opens isolateId =>
      ({ s with wsUri := uri, connected := true, running := true,
                mainIsolateId := isolateId }, true, [])

/-- Which branch `sendRequest` takes after writing the frame: the reply
future became ready in time, the wait timed out, or the transport write
failed before waiting. -/
inductive WaitOutcome where
  | resolved : WaitOutcome
  | timeout : WaitOutcome
  | sendFails (msg : String) : WaitOutcome

/-- What the blocking caller of `sendRequest` gets back. -/
inductive CallResult where
  | awaited (id : Int) : CallResult         -- suspended on the future for call `id`
  | threw (msg : String) : CallResult       -- a `std::runtime_error(msg)` escaped

/-- `VMServiceClient::sendRequest`: refuses when not connected; allocates the
next strictly-increasing id, registers the PendingCall, writes the frame.  A
send failure or a `future.wait_for` timeout erases the call's own entry
(`pending_requests_.erase(request_id)`) and throws; otherwise the caller
stays suspended on the future for the allocated id. -/
def ClientState.sendRequest (s : ClientState) (w : WaitOutcome) :
    ClientState × CallResult :=
  if !s.connected then
    (s, .threw "Not connected to VM Service")
  else
    let id := s.nextRequestId
    let s1 := { s with nextRequestId := s.nextRequestId + 1, pending := id :: s.pending }
    match w with
    | .sendFails msg =>
      ({ s1 with pending := s1.pending.erase id }, .threw ("Failed to send request: " ++ msg))
    | .timeout =>
      ({ s1 with pending := s1.pending.erase id }, .threw "Request timeout")
    | .resolved => (s1, .awaited id)

/-- What one inbound frame does (runs on the I/O loop). -/
inductive MessageEffect where
  | resolve (id : Int) (o : Outcome) : MessageEffect  -- promise completed, entry erased
  | event (params : Json) : MessageEffect             -- event callback invoked
  | ignored : MessageEffect                           -- dropped (or a caught exception)

/-- The `else if` arm of `onMessage`: a frame with no usable id is an event
notification only when `method == "streamNotify"`; anything else is dropped. -/
def ClientState.eventCheck (s : ClientState) (j : Json) : ClientState × MessageEffect :=
  match j.get? "method" with
  | some (.str "streamNotify") => (s, .event (j.getD "params"))
  | _ => (s, .ignored)

/-- `VMServiceClient::onMessage`.  A frame with a non-null id: a non-integer
id makes `get<int64_t>()` throw, caught by the surrounding `try` (no state
change); an id not in the table is silently dropped; with an `error` member
the promise is failed with `error.value("message", "Unknown error")` (a
non-object `error` or a non-string `message` makes `value` throw, caught, so
the entry is *not* erased); otherwise the promise is fulfilled with
`json["result"]`, which is `null` when the frame has no `result` member. -/
def ClientState.onMessage (s : ClientState) (j : Json) : ClientState × MessageEffect :=
  match j.get? "id" with
  | some idj =>
    if !idj.isNull then
      match idj with
      | .num id =>
        if id ∈ s.pending then
          if j.containsKey "error" then
            match j.get? "error" with
            | some (.obj efields) =>
              match efields.lookup "message" with
              | some (.str m) =>
                ({ s with pending := s.pending.erase id }, .resolve id (.exn m))
              | some _ => (s, .ignored)   -- type_error from `value`, caught
              | none =>
                ({ s with pending := s.pending.erase id }, .resolve id (.exn "Unknown error"))
            | _ => (s, .ignored)          -- `value` on a non-object, caught
          else
            ({ s with pending := s.pending.erase id },
             .resolve id (.value (j.getD "result")))
        else
          (s, .ignored)                   -- no matching PendingCall: reply dropped
      | _ => (s, .ignored)                -- id of the wrong type, caught
    else
      s.eventCheck j
  | none => s.eventCheck j

/-! ## Instance discovery (`src/flutter/instance_discovery.cpp`)

Each probe talks to the network through three observations per port: the
Observatory HTTP response body (`""` on any socket failure or timeout), the
WebSocket connect outcome, and the `getVM` call outcome (`Except.error` when
the call throws, e.g. on timeout).  `discoverInstances` probes every port of
the range, keeps the successful probes and sorts by port. -/

/-- `pat` is a prefix of the character list. -/
def isPrefixOfList : List Char → List Char → Bool
  | [], _ => true
  | _ :: _, [] => false
  | p :: ps, c :: cs => p == c && isPrefixOfList ps cs

/-- `pat` occurs somewhere in the character list. -/
def containsSubstrList (s pat : List Char) : Bool :=
  match s with
  | [] => isPrefixOfList pat []
  | _ :: rest => isPrefixOfList pat s || containsSubstrList rest pat

/-- `s.find(pat) != std::string::npos` -/
def containsSubstr (s pat : String) : Bool :=
  containsSubstrList s.data pat.data

/-- `flutter::FlutterInstance` with its member initializers as defaults.
`discovered_at` is a wall-clock timestamp and is not modelled; no claim
observes it. -/
structure FlutterInstance where
  uri : String := ""
  port : Int := 0
  projectName : String := ""
  device : String := ""
  vmVersion : String := ""
  hasAuth : Bool := false
  authToken : String := ""
  deriving DecidableEq

/-- The per-port network observations a probe makes. -/
structure ProbeEnv where
  httpResponse : Int → String
  wsConnectOk : Int → Bool
  getVM : Int → Except String Json

/-- `InstanceDiscovery::extractProjectName` -/
def extractProjectName (vm : Json) : String :=
  let step3 :=
    match vm.get? "targetModel" with
    | some (.obj mfields) =>
      match mfields.lookup "name" with
      | some (.str n) => if !n.isEmpty then n else "Unknown"
      | _ => "Unknown"
    | _ => "Unknown"
  let step2 :=
    match vm.get? "_name" with
    | some (.str n) => if !n.isEmpty && n ≠ "Unknown" then n else step3
    | _ => step3
  match vm.get? "name" with
  | some (.str n) => if !n.isEmpty && n ≠ "Unknown" then n else step2
  | _ => step2

/-- `InstanceDiscovery::extractDeviceType` -/
def extractDeviceType (vm : Json) : String :=
  let step2 :=
    match vm.get? "targetModel" with
    | some tm =>
      match tm.get? "_kind" with
      | some (.str kind) =>
        if containsSubstr kind "Chrome" then "Chrome"
        else if containsSubstr kind "Web" then "Web"
        else "Unknown"
      | _ => "Unknown"
    | none => "Unknown"
  match vm.get? "operatingSystemVersion" with
  | some (.str v) =>
    if containsSubstr v "Windows" then "Windows"
    else if containsSubstr v "Linux" then "Linux"
    else if containsSubstr v "Darwin" || containsSubstr v "macOS" then "macOS"
    else step2
  | _ => step2

/-- `InstanceDiscovery::validateFlutterService` for the candidate's
`ws://127.0.0.1:port/ws` endpoint: connect, call `getVM` (a throw is caught
and yields `false`), and require both identity members `type` and `name`. -/
def validateFlutterService (env : ProbeEnv) (port : Int) : Bool :=
  if env.wsConnectOk port then
    match env.getVM port with
    | .ok vmInfo => vmInfo.containsKey "type" && vmInfo.containsKey "name"
    | .error _ => false
  else
    false

/-- `InstanceDiscovery::probePort`.  `none` when the HTTP probe fails or the
body names none of "Dart VM"/"Observatory"/"Flutter", or when WebSocket
validation fails.  Past validation an instance is always produced; the
best-effort VM-info query fills in identity fields, any throw in it is
caught and leaves `project_name = "Unknown"` (`vm_info.value("version", …)`
throws when `version` exists with a non-string type, or when the result is
not an object). -/
def probePort (env : ProbeEnv) (port : Int) : Option FlutterInstance :=
  if (env.httpResponse port).isEmpty then
    none
  else if !containsSubstr (env.httpResponse port) "Dart VM"
      && !containsSubstr (env.httpResponse port) "Observatory"
      && !containsSubstr (env.httpResponse port) "Flutter" then
    none
  else if !validateFlutterService env port then
    none
  else if env.wsConnectOk port then
    match env.getVM port with
    | .ok vmInfo =>
      if !vmInfo.isObject then
        some { uri := "ws://127.0.0.1:" ++ toString port ++ "/ws", port := port,
               projectName := "Unknown", device := "Unknown" }
      else
        match vmInfo.get? "version" with
        | some (.str v) =>
          some { uri := "ws://127.0.0.1:" ++ toString port ++ "/ws", port := port,
                 vmVersion := v, projectName := extractProjectName vmInfo,
                 device := extractDeviceType vmInfo }
        | some _ =>
          some { uri := "ws://127.0.0.1:" ++ toString port ++ "/ws", port := port,
                 projectName := "Unknown", device := "Unknown" }
        | none =>
          some { uri := "ws://127.0.0.1:" ++ toString port ++ "/ws", port := port,
                 vmVersion := "Unknown", projectName := extractProjectName vmInfo,
                 device := extractDeviceType vmInfo }
    | .error _ =>
      some { uri := "ws://127.0.0.1:" ++ toString port ++ "/ws", port := port,
             projectName := "Unknown", device := "Unknown" }
  else
    some { uri := "ws://127.0.0.1:" ++ toString port ++ "/ws", port := port,
           device := "Unknown" }

/-- The comparator of the final `std::sort` (`a.port < b.port`), relaxed to
`≤` for the sortedness statement. -/
def portLE (a b : FlutterInstance) : Prop := a.port ≤ b.port

instance : DecidableRel portLE := fun a b => inferInstanceAs (Decidable (a.port ≤ b.port))

instance : IsTotal FlutterInstance portLE := ⟨fun a b => Int.le_total a.port b.port⟩

instance : IsTrans FlutterInstance portLE := ⟨fun _ _ _ => Int.le_trans⟩

/-- The probed port list `port_range_start, …, port_range_end`. -/
def portRange (portStart portEnd : Int) : List Int :=
  (List.range (portEnd + 1 - portStart).toNat).map (fun i : Nat => portStart + (i : Int))

/-- `InstanceDiscovery::discoverInstances`: probe every port of the range
(each `future.get()` either yields the probe's optional result or throws,
which is caught and treated like an empty probe), keep the successes, and
sort ascending by port. -/
def discoverInstances (env : ProbeEnv) (portStart portEnd : Int) : List FlutterInstance :=
  List.insertionSort portLE ((portRange portStart portEnd).filterMap (probePort env))

/-! ## Claims -/

/-- C1, counterexample.  The round-trip `parse(serialize(E)) == E` fails for
a Request constructed with null `params`: `Request::toJson` omits a null
`params` member, and `Request::fromJson` then leaves the default-initialized
empty-object `params`, so the re-parsed value differs from the original at
an explicit concrete input (method `"m"`, integer id 7, null params). -/
theorem c1_null_params_breaks_round_trip :
    Request.parseSerialized { method := "m", params := Json.null, id := .int 7 } =
      .ok { method := "m", params := Json.obj [], id := .int 7 } ∧
    Request.parseSerialized { method := "m", params := Json.null, id := .int 7 } ≠
      .ok { method := "m", params := Json.null, id := .int 7 } := by
  refine ⟨rfl, fun h => ?_⟩
  rw [show Request.parseSerialized { method := "m", params := Json.null, id := .int 7 } =
      .ok { method := "m", params := Json.obj [], id := .int 7 } from rfl] at h
  simp only [Except.ok.injEq, Request.mk.injEq] at h
  exact absurd h.2.2.1 (fun hj => nomatch hj)

/-- C1, amended: for every Request whose version literal is `"2.0"` and
whose `params` is a structured value (object or array) — string, integer or
null id alike — parsing the serialized form yields the value back;
serialization omits a null `params`, which re-parses as the default empty
object, so null-`params` envelopes are the one excluded case. -/
theorem c1_round_trip_for_structured_params (r : Request) (hv : r.jsonrpc = "2.0")
    (hp : (r.params.isObject || r.params.isArray) = true) :
    r.parseSerialized = .ok r := by
  obtain ⟨jv, m, p, i⟩ := r
  simp only at hv
  subst hv
  cases p <;> cases i <;> simp_all [Json.isObject, Json.isArray] <;> rfl

/-- Witness for C1's amended round-trip at a concrete Request with an
object `params` and integer id. -/
theorem c1_round_trip_witness :
    (({ method := "echo", params := .obj [("x", .num 1)], id := .int 7 } :
        Request).params.isObject ||
      ({ method := "echo", params := .obj [("x", .num 1)], id := .int 7 } :
        Request).params.isArray) = true ∧
    ({ method := "echo", params := .obj [("x", .num 1)], id := .int 7 } :
        Request).parseSerialized =
      .ok { method := "echo", params := .obj [("x", .num 1)], id := .int 7 } :=
  ⟨rfl, c1_round_trip_for_structured_params _ rfl rfl⟩

/-- C2, counterexample.  `validateJsonRpc` accepts a Response envelope that
carries BOTH `result` and `error` (it only requires at least one of them
when `method` is absent), so parsing such a Response does not fail — with
`InvalidRequest` or anything else. -/
theorem c2_both_result_and_error_accepted :
    validateJsonRpc (.obj [("error", .obj [("code", .num (-1)), ("message", .str "boom")]),
                           ("id", .num 1), ("jsonrpc", .str "2.0"), ("result", .null)]) =
      .ok () := rfl

/-- C2, amended: when `method` is absent, `validateJsonRpc` rejects an
envelope carrying neither `result` nor `error` — with the generic message
`"JSON-RPC message must have 'method' or 'result'/'error'"`, not an
`InvalidRequest`-coded failure — but accepts one carrying both; only the
`Response::success` / `Response::errorResponse` constructors guarantee that
exactly one of result/error is set. -/
theorem c2_response_validation (j : Json)
    (hobj : j.isObject = true)
    (hv : j.get? "jsonrpc" = some (.str "2.0"))
    (hm : j.get? "method" = none) :
    (j.containsKey "result" = false → j.containsKey "error" = false →
      validateJsonRpc j = .error "JSON-RPC message must have 'method' or 'result'/'error'") ∧
    (j.containsKey "result" = true → j.containsKey "error" = true →
      validateJsonRpc j = .ok ()) ∧
    (∀ (res : Json) (id : RequestId),
      (Response.success res id).result = some res ∧ (Response.success res id).error = none) ∧
    (∀ (e : Error) (id : RequestId),
      (Response.errorResponse e id).result = none ∧ (Response.errorResponse e id).error = some e) := by
  refine ⟨fun hr he => ?_, fun hr he => ?_, fun res id => ⟨rfl, rfl⟩, fun e id => ⟨rfl, rfl⟩⟩ <;>
    · simp [validateJsonRpc, hobj, hv, hm, hr, he]
      rfl

/-- Witness for C2's amended validation facts at concrete envelopes. -/
theorem c2_response_validation_witness :
    validateJsonRpc (.obj [("id", .num 1), ("jsonrpc", .str "2.0")]) =
      .error "JSON-RPC message must have 'method' or 'result'/'error'" ∧
    validateJsonRpc (.obj [("id", .num 1), ("jsonrpc", .str "2.0"), ("result", .null)]) ≠
      .error "JSON-RPC message must have 'method' or 'result'/'error'" ∧
    (Response.success .null (.int 1)).error = none := by
  have h1 := (c2_response_validation (.obj [("id", .num 1), ("jsonrpc", .str "2.0")])
    rfl rfl rfl).1 rfl rfl
  have h3 := ((c2_response_validation (.obj [("id", .num 1), ("jsonrpc", .str "2.0")])
    rfl rfl rfl).2.2.1 Json.null (.int 1)).2
  refine ⟨h1, ?_, h3⟩
  rw [show validateJsonRpc (.obj [("id", .num 1), ("jsonrpc", .str "2.0"), ("result", .null)]) =
      .ok () from rfl]
  exact fun h => nomatch h

/-- C3, counterexample.  On the freshly constructed (Uninitialized) server a
request for the unregistered method `"foo"` receives `MethodNotFound`
(-32601, from the registry miss in `MessageHandler::handleRequest`), not a
"not initialized" rejection: the registry is consulted first and no gate
runs before it. -/
theorem c3_uninitialized_unregistered_method_not_found :
    ((ServerState.handleRequest {} { method := "foo", id := .int 1 }).2).error =
      some { code := -32601, message := "Method 'foo' not found", data := none } := rfl

/-- C3, amended: the handshake gate lives inside the registered handlers,
after the registry lookup.  While `initialized_` is false, `tools/list` and
`tools/call` requests fail because their handler throws
`"Server not initialized"`, surfacing as an `InternalError` (-32603)
response (the code has no distinct NotInitialized error code); a request for
a method outside {initialize, tools/list, tools/call, ping} receives
`MethodNotFound` regardless of handshake state; `ping` succeeds while
uninitialized; and a second `initialize` fails with `InternalError`
`"Server already initialized"`. -/
theorem c3_handshake_gate_inside_handlers :
    (∀ (s : ServerState) (p : Json) (id : RequestId), s.initialized = false →
      s.handleRequest { method := "tools/list", params := p, id := id } =
        (s, Response.errorResponse (Error.fromCode .internalError "Server not initialized") id)) ∧
    (∀ (s : ServerState) (p : Json) (id : RequestId), s.initialized = false →
      s.handleRequest { method := "tools/call", params := p, id := id } =
        (s, Response.errorResponse (Error.fromCode .internalError "Server not initialized") id)) ∧
    (∀ (s : ServerState) (p : Json) (id : RequestId) (m : String), m ∉ serverMethods →
      s.handleRequest { method := m, params := p, id := id } =
        (s, Response.errorResponse
          (Error.fromCode .methodNotFound ("Method '" ++ m ++ "' not found")) id)) ∧
    (∀ (s : ServerState) (p : Json) (id : RequestId), s.initialized = false →
      (s.handleRequest { method := "ping", params := p, id := id }).2 =
        Response.success (.obj []) id) ∧
    (∀ (s : ServerState) (p : Json) (id : RequestId), s.initialized = true →
      s.handleRequest { method := "initialize", params := p, id := id } =
        (s, Response.errorResponse (Error.fromCode .internalError "Server already initialized") id)) := by
  refine ⟨fun s p id h => ?_, fun s p id h => ?_, fun s p id m hm => ?_,
          fun s p id h => ?_, fun s p id h => ?_⟩
  · simp [ServerState.handleRequest, ServerState.runHandler, ServerState.handleToolsList, h]
  · simp [ServerState.handleRequest, ServerState.runHandler, ServerState.handleToolsCall, h]
  · simp only [serverMethods, List.mem_cons, List.not_mem_nil, or_false, not_or] at hm
    obtain ⟨h1, h2, h3, h4⟩ := hm
    simp [ServerState.handleRequest, ServerState.runHandler, h1, h2, h3, h4]
  · simp [ServerState.handleRequest, ServerState.runHandler, ServerState.handlePing, h]
  · simp [ServerState.handleRequest, ServerState.runHandler, ServerState.handleInitialize, h]

/-- Witness for C3's amended gate behaviour on the fresh server state. -/
theorem c3_handshake_gate_witness :
    (ServerState.handleRequest {} { method := "tools/list", id := .int 2 } =
      ({}, Response.errorResponse
        (Error.fromCode .internalError "Server not initialized") (.int 2))) ∧
    (ServerState.handleRequest {} { method := "foo", id := .int 1 } =
      ({}, Response.errorResponse
        (Error.fromCode .methodNotFound "Method 'foo' not found") (.int 1))) ∧
    (ServerState.handleRequest { initialized := true } { method := "initialize", id := .int 3 } =
      ({ initialized := true }, Response.errorResponse
        (Error.fromCode .internalError "Server already initialized") (.int 3))) :=
  ⟨c3_handshake_gate_inside_handlers.1 {} (.obj []) (.int 2) rfl,
   c3_handshake_gate_inside_handlers.2.2.1 {} (.obj []) (.int 1) "foo" (by decide),
   c3_handshake_gate_inside_handlers.2.2.2.2 { initialized := true } (.obj []) (.int 3) rfl⟩

/-- C7, counterexample.  A handler that raises `"boom"` yields an
`InternalError` response whose `message` field is `"boom"` while its `data`
field is ABSENT — the failure's message is not carried in `data` as the
claim states. -/
theorem c7_failure_message_not_in_data :
    (MessageHandler.handleRequest ⟨[("f", fun _ => .error "boom")]⟩
        { method := "f", id := .int 1 }).error =
      some { code := -32603, message := "boom", data := none } ∧
    ((MessageHandler.handleRequest ⟨[("f", fun _ => .error "boom")]⟩
        { method := "f", id := .int 1 }).error.map (fun e => e.data)) = some none :=
  ⟨rfl, rfl⟩

/-- C7, amended: when the registered handler for a Request's method raises a
failure, `handleRequest` catches it at the dispatch boundary (it is a total
function — nothing propagates) and returns an `InternalError` response whose
`message` carries the failure's message (`data` stays empty). -/
theorem c7_handler_failure_becomes_internal_error (h : MessageHandler) (req : Request)
    (hd : MethodHandler) (e : String)
    (hlook : h.methods.lookup req.method = some hd)
    (hfail : hd req.params = .error e) :
    h.handleRequest req = Response.errorResponse (Error.fromCode .internalError e) req.id := by
  simp [MessageHandler.handleRequest, hlook, hfail]

/-- Witness for C7's amended dispatch-boundary behaviour at a concrete
throwing handler. -/
theorem c7_handler_failure_witness :
    MessageHandler.handleRequest ⟨[("g", fun _ => .error "kaput")]⟩
        { method := "g", id := .str "a" } =
      Response.errorResponse (Error.fromCode .internalError "kaput") (.str "a") :=
  c7_handler_failure_becomes_internal_error ⟨[("g", fun _ => .error "kaput")]⟩
    { method := "g", id := .str "a" } (fun _ => .error "kaput") "kaput" rfl rfl

/-- C8, counterexample.  The wire field is named `jsonrpc`, not
`protocolVersion`: the claim's concrete request (which has a
`protocolVersion` member and no `jsonrpc` member) is rejected by
`validateJsonRpc`, and dispatching it against a registered `echo` handler
yields a `ParseError` reply with null id — carrying `Request::parse`'s
wrapped failure message — not the claimed echo reply. -/
theorem c8_protocol_version_field_rejected :
    Request.fromJson (.obj [("id", .num 7), ("method", .str "echo"),
        ("params", .obj [("x", .num 1)]), ("protocolVersion", .str "2.0")]) =
      .error "JSON-RPC version must be '2.0'" ∧
    MessageHandler.handleMessage ⟨[("echo", fun p => .ok p)]⟩
        (.obj [("id", .num 7), ("method", .str "echo"),
               ("params", .obj [("x", .num 1)]), ("protocolVersion", .str "2.0")]) =
      some (.obj [("error", .obj [("code", .num (-32700)),
                                  ("message", .str
                                    "Failed to parse JSON-RPC request: JSON-RPC version must be '2.0'")]),
                  ("id", .null), ("jsonrpc", .str "2.0")]) :=
  ⟨rfl, rfl⟩

/-- C8, amended: the version field every frame carries is `jsonrpc` with
literal `"2.0"`.  The concrete scenario holds with that field name: the
request with `jsonrpc` `"2.0"`, method `echo`, params `{x:1}` and id 7,
dispatched against the registered handler `echo(p) -> p`, yields the reply
carrying `jsonrpc` `"2.0"`, result `{x:1}` and id 7. -/
theorem c8_echo_scenario_with_jsonrpc_field :
    MessageHandler.handleMessage ⟨[("echo", fun p => .ok p)]⟩
        (.obj [("id", .num 7), ("jsonrpc", .str "2.0"), ("method", .str "echo"),
               ("params", .obj [("x", .num 1)])]) =
      some (.obj [("id", .num 7), ("jsonrpc", .str "2.0"),
                  ("result", .obj [("x", .num 1)])]) := rfl

/-- C4: on a connected client whose pending ids are all below the id
counter (the invariant `sendRequest`'s post-increment maintains), a call
whose wait times out (i) fails by throwing `"Request timeout"`, (ii) removes
exactly its own entry — the pending table afterwards equals the table before
the call, so no other pending call is affected — and (iii) a matching reply
arriving afterwards is silently dropped: `onMessage` finds no entry for the
call's id and leaves the state untouched with no promise resolution. -/
theorem c4_timeout_removes_own_entry_and_drops_late_reply (s : ClientState)
    (hc : s.connected = true)
    (hfresh : ∀ i ∈ s.pending, i < s.nextRequestId) :
    (s.sendRequest .timeout).2 = .threw "Request timeout" ∧
    (s.sendRequest .timeout).1.pending = s.pending ∧
    ∀ res : Json,
      (s.sendRequest .timeout).1.onMessage
          (.obj [("id", .num s.nextRequestId), ("jsonrpc", .str "2.0"), ("result", res)]) =
        ((s.sendRequest .timeout).1, .ignored) := by
  have hsend : s.sendRequest .timeout =
      ({ s with nextRequestId := s.nextRequestId + 1, pending := s.pending },
       .threw "Request timeout") := by
    simp [ClientState.sendRequest, hc, List.erase_cons_head]
  refine ⟨by rw [hsend], by rw [hsend], fun res => ?_⟩
  rw [hsend]
  have hnot : s.nextRequestId ∉ s.pending := fun hmem => lt_irrefl _ (hfresh _ hmem)
  simp [ClientState.onMessage, Json.get?, Json.isNull, hnot]

/-- Witness for C4 on a connected client with two other pending calls. -/
theorem c4_timeout_witness :
    (∀ i ∈ ({ connected := true, running := true, nextRequestId := 5,
              pending := [1, 2] } : ClientState).pending,
      i < ({ connected := true, running := true, nextRequestId := 5,
             pending := [1, 2] } : ClientState).nextRequestId) ∧
    (({ connected := true, running := true, nextRequestId := 5,
        pending := [1, 2] } : ClientState).sendRequest .timeout).2 =
      .threw "Request timeout" ∧
    (({ connected := true, running := true, nextRequestId := 5,
        pending := [1, 2] } : ClientState).sendRequest .timeout).1.pending = [1, 2] ∧
    (({ connected := true, running := true, nextRequestId := 5,
        pending := [1, 2] } : ClientState).sendRequest .timeout).1.onMessage
        (.obj [("id", .num 5), ("jsonrpc", .str "2.0"), ("result", .null)]) =
      ((({ connected := true, running := true, nextRequestId := 5,
           pending := [1, 2] } : ClientState).sendRequest .timeout).1, .ignored) :=
  ⟨by decide,
   (c4_timeout_removes_own_entry_and_drops_late_reply _ rfl (by decide)).1,
   (c4_timeout_removes_own_entry_and_drops_late_reply _ rfl (by decide)).2.1,
   (c4_timeout_removes_own_entry_and_drops_late_reply _ rfl (by decide)).2.2 .null⟩

/-- C5: `disconnect()` on a connected client completes every one of the
pending calls with the `"Connection closed"` failure (one resolution per
pending id, in table order), leaves the pending table empty, and a second
`disconnect()` on the resulting state is a no-op returning the state
unchanged with no resolutions. -/
theorem c5_disconnect_fails_all_pending_and_is_idempotent (s : ClientState)
    (hc : s.connected = true) :
    (s.disconnect).2 = s.pending.map (fun id => (id, Outcome.exn "Connection closed")) ∧
    (s.disconnect).1.pending = [] ∧
    ((s.disconnect).1).disconnect = ((s.disconnect).1, []) := by
  have hd : s.disconnect =
      ({ s with connected := false, running := false, pending := [], mainIsolateId := "" },
       s.pending.map (fun id => (id, Outcome.exn "Connection closed"))) := by
    simp [ClientState.disconnect, hc]
  refine ⟨by rw [hd], by rw [hd], ?_⟩
  rw [hd]
  simp [ClientState.disconnect]

/-- Witness for C5 on a connected client with three outstanding calls. -/
theorem c5_disconnect_witness :
    (({ connected := true, running := true, nextRequestId := 9,
        pending := [3, 1, 7] } : ClientState).disconnect).2 =
      [(3, Outcome.exn "Connection closed"), (1, Outcome.exn "Connection closed"),
       (7, Outcome.exn "Connection closed")] ∧
    (({ connected := true, running := true, nextRequestId := 9,
        pending := [3, 1, 7] } : ClientState).disconnect).1.pending = [] ∧
    ((({ connected := true, running := true, nextRequestId := 9,
         pending := [3, 1, 7] } : ClientState).disconnect).1).disconnect =
      ((({ connected := true, running := true, nextRequestId := 9,
           pending := [3, 1, 7] } : ClientState).disconnect).1, []) :=
  ⟨(c5_disconnect_fails_all_pending_and_is_idempotent _ rfl).1,
   (c5_disconnect_fails_all_pending_and_is_idempotent _ rfl).2.1,
   (c5_disconnect_fails_all_pending_and_is_idempotent _ rfl).2.2⟩

/-- C9: `connect(uri, auth_token)` on an already-connected client returns
`true` immediately with the state — including the recorded endpoint
`ws_uri_`, which may differ from the `uri` just supplied — completely
unchanged, for every transport outcome, URI and token. -/
theorem c9_connect_when_connected_is_noop (s : ClientState) (t : ConnectAttempt)
    (uri authToken : String) (hc : s.connected = true) :
    s.connect t uri authToken = (s, true, []) := by
  simp [ClientState.connect, hc]

/-- Witness for C9: a client connected to `ws://127.0.0.1:8181/ws` asked to
connect to a different endpoint with a fresh token reports success and keeps
its state. -/
theorem c9_connect_witness :
    ({ wsUri := "ws://127.0.0.1:8181/ws", connected := true, running := true,
       nextRequestId := 4, pending := [2] } : ClientState).connect
        (.opens "isolates/1") "ws://127.0.0.1:9999/ws" "tok" =
      ({ wsUri := "ws://127.0.0.1:8181/ws", connected := true, running := true,
         nextRequestId := 4, pending := [2] }, true, []) :=
  c9_connect_when_connected_is_noop _ _ _ _ rfl

/-- C10: a frame with a non-null integer id matching a pending call and no
`error` member fulfills that call with the frame's `result` member — which
is JSON `null` when the frame has no `result` member at all, so a reply
carrying neither `result` nor `error` still resolves the call successfully
with `null` instead of failing it. -/
theorem c10_missing_result_resolves_with_null (s : ClientState) (id : Int) (j : Json)
    (hid : j.get? "id" = some (.num id))
    (hmem : id ∈ s.pending)
    (herr : j.containsKey "error" = false) :
    s.onMessage j =
      ({ s with pending := s.pending.erase id }, .resolve id (.value (j.getD "result"))) ∧
    (j.get? "result" = none → j.getD "result" = .null) := by
  constructor
  · simp [ClientState.onMessage, hid, Json.isNull, hmem, herr]
  · intro hres
    simp [Json.getD, hres]

/-- Witness for C10: a pending call with id 7 is resolved with `null` by the
reply frame `{"id":7,"jsonrpc":"2.0"}`, which carries neither `result` nor
`error`. -/
theorem c10_missing_result_witness :
    ({ connected := true, running := true, nextRequestId := 8,
       pending := [7] } : ClientState).onMessage
        (.obj [("id", .num 7), ("jsonrpc", .str "2.0")]) =
      ({ connected := true, running := true, nextRequestId := 8, pending := [] },
       .resolve 7 (.value .null)) := by
  have h := (c10_missing_result_resolves_with_null
    ({ connected := true, running := true, nextRequestId := 8, pending := [7] })
    7 (.obj [("id", .num 7), ("jsonrpc", .str "2.0")]) rfl (by decide) rfl).1
  simpa using h

/-- The strict comparator of discovery's final `std::sort`
(`a.port < b.port`). -/
def portLT (a b : FlutterInstance) : Prop := a.port < b.port

instance : IsAntisymm FlutterInstance portLT :=
  ⟨fun _ _ h1 h2 => absurd h2 (not_lt.mpr (le_of_lt h1))⟩

/-- Every instance a probe produces carries the probed port. -/
theorem probePort_port (env : ProbeEnv) (p : Int) (inst : FlutterInstance)
    (h : probePort env p = some inst) : inst.port = p := by
  unfold probePort at h
  repeat' split at h
  all_goals try exact Option.noConfusion h
  all_goals (injection h with h; subst h; rfl)

/-- The scanned port list is strictly increasing. -/
theorem portRange_pairwise (a b : Int) : (portRange a b).Pairwise (· < ·) := by
  unfold portRange
  rw [List.pairwise_map]
  refine (List.pairwise_lt_range _).imp (fun {i j} hij => ?_)
  show a + (i : Int) < a + (j : Int)
  omega

/-- The successful probes, collected in scan order, already have strictly
increasing ports (one future per port, one instance per successful probe). -/
theorem collected_pairwise (env : ProbeEnv) (a b : Int) :
    (((portRange a b).filterMap (probePort env)).Pairwise portLT) := by
  rw [List.pairwise_filterMap]
  refine (portRange_pairwise a b).imp ?_
  intro p q hpq x hx y hy
  rw [Option.mem_def] at hx hy
  have hx' := probePort_port env p x hx
  have hy' := probePort_port env q y hy
  simp only [portLT, hx', hy']
  exact hpq

/-- A list sorted by `≤` on ports whose ports are pairwise distinct is
sorted strictly. -/
theorem sorted_lt_of_sorted_le_nodup (l : List FlutterInstance)
    (hs : l.Sorted portLE) (hn : (l.map (fun i => i.port)).Nodup) :
    l.Sorted portLT := by
  have hne : l.Pairwise (fun x y => x.port ≠ y.port) := List.pairwise_map.mp hn
  exact (hs.and hne).imp (fun h => lt_of_le_of_ne h.1 h.2)

/-- C6: `discoverInstances` (i) contains exactly the instances of the
candidate ports whose probe succeeds — a probe that fails to open a
connection, times out, or whose validation result lacks the `type`/`name`
identity fields returns `none` and is thereby excluded, silently, with no
effect on the others; (ii) returns them sorted by candidate port ascending;
and (iii) is deterministic regardless of the order in which the concurrent
probes' results are collected: sorting any permutation of the collected
probe results yields exactly `discoverInstances`' output. -/
theorem c6_discover_excludes_failures_and_sorts_by_port :
    (∀ (env : ProbeEnv) (a b : Int) (inst : FlutterInstance),
      inst ∈ discoverInstances env a b ↔
        ∃ p ∈ portRange a b, probePort env p = some inst) ∧
    (∀ (env : ProbeEnv) (a b : Int), (discoverInstances env a b).Sorted portLE) ∧
    (∀ (env : ProbeEnv) (a b : Int) (l : List FlutterInstance),
      l.Perm ((portRange a b).filterMap (probePort env)) →
      List.insertionSort portLE l = discoverInstances env a b) := by
  refine ⟨fun env a b inst => ?_, fun env a b => ?_, fun env a b l hperm => ?_⟩
  · rw [discoverInstances, (List.perm_insertionSort portLE _).mem_iff, List.mem_filterMap]
  · exact List.sorted_insertionSort portLE _
  · have hc := collected_pairwise env a b
    have hnodc : (((portRange a b).filterMap (probePort env)).map (fun i => i.port)).Nodup :=
      List.pairwise_map.mpr (hc.imp (fun h => ne_of_lt h))
    have hperm1 : List.Perm (List.insertionSort portLE l)
        ((portRange a b).filterMap (probePort env)) :=
      (List.perm_insertionSort portLE l).trans hperm
    have hperm2 : List.Perm
        (List.insertionSort portLE ((portRange a b).filterMap (probePort env)))
        ((portRange a b).filterMap (probePort env)) := List.perm_insertionSort portLE _
    have hsl : (List.insertionSort portLE l).Sorted portLT :=
      sorted_lt_of_sorted_le_nodup _ (List.sorted_insertionSort portLE _)
        ((hperm1.map (fun i => i.port)).nodup_iff.mpr hnodc)
    have hsc : (List.insertionSort portLE ((portRange a b).filterMap (probePort env))).Sorted
        portLT :=
      sorted_lt_of_sorted_le_nodup _ (List.sorted_insertionSort portLE _)
        ((hperm2.map (fun i => i.port)).nodup_iff.mpr hnodc)
    rw [discoverInstances]
    exact List.eq_of_perm_of_sorted (hperm1.trans hperm2.symm) hsl hsc

/-- Witness for C6: over the two-port scan 0–1 against an environment where
both probes succeed, sorting the collected results in reversed completion
order reproduces `discoverInstances`' output. -/
theorem c6_discover_witness :
    List.insertionSort portLE
        [{ uri := "ws://127.0.0.1:1/ws", port := 1, projectName := "app", device := "Unknown",
           vmVersion := "Unknown" },
         { uri := "ws://127.0.0.1:0/ws", port := 0, projectName := "app", device := "Unknown",
           vmVersion := "Unknown" }] =
      discoverInstances ⟨fun _ => "Flutter", fun _ => true,
        fun _ => .ok (.obj [("name", .str "app"), ("type", .str "VM")])⟩ 0 1 := by
  refine c6_discover_excludes_failures_and_sorts_by_port.2.2 _ 0 1 _ ?_
  rw [show (portRange 0 1).filterMap (probePort ⟨fun _ => "Flutter", fun _ => true,
      fun _ => .ok (.obj [("name", .str "app"), ("type", .str "VM")])⟩) =
    [{ uri := "ws://127.0.0.1:0/ws", port := 0, projectName := "app", device := "Unknown",
       vmVersion := "Unknown" },
     { uri := "ws://127.0.0.1:1/ws", port := 1, projectName := "app", device := "Unknown",
       vmVersion := "Unknown" }] from rfl]
  exact List.Perm.swap _ _ []

end FlutterReflect
